import Mathlib

/-! dfuse search: BigQuery indexer orchestration and factory registry

A shallow embedding of `src/registry.go` and `src/indexer-bigquery/indexer.go`.

* Go strings are byte sequences; they are modelled as lists of byte values.
* A Go `error` value is modelled by the text its `Error()` method returns; the
  `nil` error is `none`.
* Unsigned 64-bit block numbers are natural numbers; the only arithmetic the
  code performs on them is `%`, which cannot overflow.
* Methods of `*IndexerBigQuery` are state transformers that also record the
  calls they make on their collaborators (logger, pipeline, source, shutter) in
  a trace, and that end by returning, by a run-time panic, or by never
  returning from a blocking collaborator call.
-/

namespace Search

/-! ## Strings and errors -/

/-- A Go string: a finite sequence of bytes. -/
abbrev GoString := List Nat

/-- The bytes of an ASCII literal of the source. -/
def ascii (s : String) : GoString := s.toList.map Char.toNat

/-- A non-nil Go `error`, identified with the text of its `Error()` method. -/
structure GoError where
  text : GoString
deriving DecidableEq, Repr

/-- The method `Error()` of a non-nil error. -/
def GoError.Error (e : GoError) : GoString := e.text

/-- Go `strings.HasSuffix(s, suffix)`:
`len(s) >= len(suffix) && s[len(s)-len(suffix):] == suffix`. -/
def HasSuffix (s suffix : GoString) : Bool :=
  decide (s.length ≥ suffix.length) && (s.drop (s.length - suffix.length) == suffix)

/-- The verb `%d` of `fmt` applied to an unsigned integer: its decimal digits. -/
def fmtUint (n : Nat) : GoString := (Nat.toDigits 10 n).map Char.toNat

/-! ## registry.go -/

/-- The four package-level registry variables of `registry.go`; each is a
function or interface value that is `nil` (`none`) until the embedding
application sets it. The payload types are left abstract. -/
structure Registry (SearchMatchFactory MatchCollector BleveQueryFactory IndexedFieldsMapFunc : Type) where
  GetSearchMatchFactory : Option SearchMatchFactory
  GetMatchCollector : Option MatchCollector
  GetBleveQueryFactory : Option BleveQueryFactory
  GetIndexedFieldsMap : Option IndexedFieldsMapFunc

/-- The error texts of `ValidateRegistry`, in source order. -/
def errNoMatchCollector : GoError :=
  ⟨ascii "no match collector set, check that you set `search.GetMatchCollector`"⟩

/-- Text returned when `GetBleveQueryFactory` is nil. -/
def errNoBleveQueryFactory : GoError :=
  ⟨ascii "no bleve query factory set, check that you set `search.GetBleveQueryFactory`"⟩

/-- Text returned when `GetSearchMatchFactory` is nil. -/
def errNoSearchMatchFactory : GoError :=
  ⟨ascii "no search match factory set, check that you set `search.GetSearchMatchFactory`"⟩

/-- Text returned when `GetIndexedFieldsMap` is nil. -/
def errNoIndexedFieldsMap : GoError :=
  ⟨ascii "no indexed fields map func set, check that you set `search.GetIndexedFieldsMap`"⟩

/-- The function `ValidateRegistry` of `registry.go`. -/
def ValidateRegistry {A B C D : Type} (r : Registry A B C D) : Option GoError :=
  if r.GetMatchCollector.isNone then
    some errNoMatchCollector
  else if r.GetBleveQueryFactory.isNone then
    some errNoBleveQueryFactory
  else if r.GetSearchMatchFactory.isNone then
    some errNoSearchMatchFactory
  else if r.GetIndexedFieldsMap.isNone then
    some errNoIndexedFieldsMap
  else
    none

/-- The registry entries, named as the claim names them. -/
inductive RegistryEntry where
  | matchCollector
  | bleveQueryFactory
  | searchMatchFactory
  | indexedFieldsMap
deriving DecidableEq, Repr

/-- Whether an entry of the registry is unset (nil). -/
def RegistryEntry.unset {A B C D : Type} (r : Registry A B C D) : RegistryEntry → Bool
  | .matchCollector => r.GetMatchCollector.isNone
  | .bleveQueryFactory => r.GetBleveQueryFactory.isNone
  | .searchMatchFactory => r.GetSearchMatchFactory.isNone
  | .indexedFieldsMap => r.GetIndexedFieldsMap.isNone

/-- The error that names an entry. -/
def RegistryEntry.error : RegistryEntry → GoError
  | .matchCollector => errNoMatchCollector
  | .bleveQueryFactory => errNoBleveQueryFactory
  | .searchMatchFactory => errNoSearchMatchFactory
  | .indexedFieldsMap => errNoIndexedFieldsMap

/-- The order in which the claim lists the entries. -/
def registryOrder : List RegistryEntry :=
  [.matchCollector, .bleveQueryFactory, .searchMatchFactory, .indexedFieldsMap]

/-- Specification side: the first unset entry in the stated order, if any. -/
def firstUnset {A B C D : Type} (r : Registry A B C D) : Option RegistryEntry :=
  registryOrder.find? (RegistryEntry.unset r)

/-- Specification side: the words by which the claim refers to an entry. -/
def RegistryEntry.phrase : RegistryEntry → GoString
  | .matchCollector => ascii "match collector"
  | .bleveQueryFactory => ascii "bleve query factory"
  | .searchMatchFactory => ascii "search match factory"
  | .indexedFieldsMap => ascii "indexed fields map"

/-- Specification side: the qualified name of the package variable behind an
entry, as declared at the top of `registry.go`. -/
def RegistryEntry.variable : RegistryEntry → GoString
  | .matchCollector => ascii "search.GetMatchCollector"
  | .bleveQueryFactory => ascii "search.GetBleveQueryFactory"
  | .searchMatchFactory => ascii "search.GetSearchMatchFactory"
  | .indexedFieldsMap => ascii "search.GetIndexedFieldsMap"

/-- Specification side: an error names an entry when its text contains both
the words for the entry and the qualified name of its variable. -/
def namesEntry (err : GoError) (x : RegistryEntry) : Bool :=
  decide (x.phrase <:+: err.text) && decide (x.variable <:+: err.text)

/-! ## Effects -/

/-- The termination hooks registered on the shutter of the indexer. The only hook
the source registers is the closure of `Launch`. -/
inductive Hook where
  | launchHook
deriving DecidableEq, Repr

/-- The run-time panics the embedded code can raise itself. -/
inductive GoPanic where
  | integerDivideByZero
  | nilDereference
  | collaborator (tag : Nat)
deriving DecidableEq, Repr

/-- How a call ends: it returns a value, it panics, or it never returns. -/
inductive Res (α : Type) where
  | ret (a : α)
  | panicked (p : GoPanic)
  | blocked
deriving DecidableEq, Repr

/-- The levels of the zap logger the source uses. -/
inductive LogLevel where
  | info
  | error
deriving DecidableEq, Repr

/-- The observable actions of the orchestrator, recorded when they start. -/
inductive Event where
  | zlog (level : LogLevel) (msg : GoString)
  | zlogSync
  | pipelineBootstrap (startBlockNum : Nat)
  | pipelineSetCatchUpMode
  | pipelineWaitOnUploads
  | shuttingDownStore (b : Bool)
  | serveHealthz
  | sourceRun
  | sourceShutdown (e : Option GoError)
  | OnTerminating (f : Hook)
  | Shutdown (e : Option GoError)
deriving DecidableEq, Repr

/-- Whether an event is a call on the logger. -/
def Event.isLog : Event → Bool
  | .zlog _ _ => true
  | .zlogSync => true
  | _ => false

/-! ## Collaborator types used by indexer.go

The packages `bstream`, `forkable`, `blockstream`, `dstore` and `shutter`, and
the type `Pipeline` of this package, are not part of the embedded sources.
Constructors of those packages are recorded as syntax: a value of `Handler` or
`Source` is the object graph the constructor calls of the source build. -/

/-- An opaque `dstore.Store` handle. -/
structure Store where
  handle : Nat
deriving DecidableEq, Repr

/-- An opaque `search.BlockMapper` handle. -/
structure BlockMapper where
  handle : Nat
deriving DecidableEq, Repr

/-- A `bstream.BlockRef`: an identifier and a number. -/
structure BlockRef where
  id : GoString
  num : Nat
deriving DecidableEq, Repr

/-- The method `ID()` of a block reference. -/
def BlockRef.ID (r : BlockRef) : GoString := r.id

/-- The method `Num()` of a block reference. -/
def BlockRef.Num (r : BlockRef) : Nat := r.num

/-- The constructor `bstream.NewBlockRef(id, num)`. -/
def NewBlockRef (id : GoString) (num : Nat) : BlockRef := ⟨id, num⟩

/-- The gate modes `bstream.GateInclusive` and `bstream.GateExclusive`. -/
inductive GateType where
  | GateInclusive
  | GateExclusive
deriving DecidableEq, Repr

/-- The step flags of package `forkable`. -/
inductive StepType where
  | StepNew
  | StepUndo
  | StepRedo
  | StepHandoff
  | StepIrreversible
  | StepStalled
deriving DecidableEq, Repr

/-- A value of the bit-flag type `forkable.StepType`: the set of flags that
are raised in it. The operator `|` of the source is the union of flag sets. -/
abbrev StepMask := List StepType

/-- The bitwise or of two step masks. -/
def StepMask.or (a b : StepMask) : StepMask := a ++ b.filter (fun s => !a.contains s)

/-- The options of `forkable.New` that the source uses. -/
inductive ForkableOption where
  | WithFilters (steps : StepMask)
  | WithInclusiveLIB (lib : BlockRef)
deriving DecidableEq, Repr

/-- The options of `bstream.NewJoiningSource` that the source uses. -/
inductive JoiningSourceOption where
  | JoiningSourceTargetBlockID (id : GoString)
  | JoiningSourceTargetBlockNum (num : Nat)
deriving DecidableEq, Repr

/-- Modelled from the spec: the type `Pipeline` and the method `newPipeline`
are absent from the sources; the spec names the pipeline as the downstream
collaborator that receives the blocks, built around the block mapper. Only the
mapper it was built with is recorded. -/
structure Pipeline where
  mapper : BlockMapper
deriving DecidableEq, Repr

/-- A `bstream.Handler` as the source builds it: each constructor wraps the
handler that receives what it forwards. -/
inductive Handler where
  | pipe (p : Pipeline)
  | NewBlockIDGate (blockID : GoString) (gateType : GateType) (h : Handler)
  | NewBlockNumGate (blockNum : Nat) (gateType : GateType) (MaxHoldOff : Nat) (h : Handler)
  | NewIrreversibleBlockNumGate (blockNum : Nat) (gateType : GateType) (h : Handler)
  | forkableNew (h : Handler) (opts : List ForkableOption)
deriving DecidableEq, Repr

/-- The result of `bstream.NewFileSource` followed by the optional `SetLogger`. -/
structure FileSource where
  blocksStore : Store
  startBlockNum : Nat
  parallelDownloads : Nat
  preprocFunc : Option BlockMapper
  h : Handler
  logger : Bool
deriving DecidableEq, Repr

/-- The result of `blockstream.NewSource(ctx, endpointURL, burst, h)`. -/
structure BlockstreamSource where
  endpointURL : GoString
  burst : Nat
  h : Handler
deriving DecidableEq, Repr

/-- The result of `bstream.NewJoiningSource`: the two source factories, the
handler and the options. -/
structure JoiningSource where
  fileSourceFactory : Handler → FileSource
  liveSourceFactory : Handler → BlockstreamSource
  h : Handler
  options : List JoiningSourceOption

/-- What one invocation of the source factory of the live pipeline does: the
calls it makes on the pipeline and the joining source it returns. -/
structure FactoryCall where
  trace : List Event
  js : JoiningSource

/-- The fields of the indexer that the factory closure reads through its
receiver pointer at the time it is invoked. -/
structure IndexerView where
  blocksStore : Store
  blockstreamAddr : GoString
  Verbose : Bool

/-- A `bstream.Source` as the source builds it. -/
inductive Source where
  | fileSource (fs : FileSource)
  | NewEternalSource (sf : IndexerView → BlockRef → Handler → FactoryCall) (h : Handler)

/-! ## The orchestrator state -/

/-- Modelled from the spec: the embedded `shutter.Shutter` is absent from the
sources. The spec calls it a single shutdown signal carrying nil or an error,
whose shutdown call is idempotent and on which termination hooks are
registered: `fired` tells whether the signal was already given, `err` is its
value, `calls` the registered hooks in registration order. -/
structure Shutter where
  fired : Bool
  err : Option GoError
  calls : List Hook
deriving DecidableEq, Repr

/-- The struct `IndexerBigQuery`. The lock-guarded head block time and LIB
block are not touched by the embedded methods and are left out. The last two
fields are the state of the object behind `source`: whether that source has
terminated and the value its `Err()` reports. -/
structure IndexerBigQuery where
  shutter : Shutter
  grpcListenAddr : GoString
  StartBlockNum : Nat
  StopBlockNum : Nat
  shardSize : Nat
  pipeline : Option Pipeline
  source : Option Source
  indexesStore : Store
  blocksStore : Store
  blockstreamAddr : GoString
  blockMapper : BlockMapper
  dfuseHooksActionName : GoString
  writePath : GoString
  Verbose : Bool
  ready : Bool
  shuttingDown : Bool
  sourceTerminated : Bool
  sourceErr : Option GoError

/-- The constructor `NewIndexerBigQuery`; unset fields take Go zero values. -/
def NewIndexerBigQuery (indexesStore blocksStore : Store) (blockstreamAddr : GoString)
    (blockMapper : BlockMapper) (writePath : GoString) (shardSize : Nat)
    (grpcListenAddr : GoString) : IndexerBigQuery :=
  { shutter := { fired := false, err := none, calls := [] }
    shuttingDown := false
    indexesStore := indexesStore
    blocksStore := blocksStore
    blockstreamAddr := blockstreamAddr
    blockMapper := blockMapper
    shardSize := shardSize
    writePath := writePath
    grpcListenAddr := grpcListenAddr
    StartBlockNum := 0
    StopBlockNum := 0
    pipeline := none
    source := none
    dfuseHooksActionName := []
    Verbose := false
    ready := false
    sourceTerminated := false
    sourceErr := none }

/-! ## Programs -/

/-- The behaviour of the collaborators and the package-level values that the
sources do not contain. The pipeline methods receive the pointer `i.pipeline`
(possibly nil) as their receiver. `sourceRun` tells how `Run()` of a source
ends and, when it returns, the terminal error the source then holds. -/
structure Collaborators where
  pipelineBootstrap : Option Pipeline → Nat → Res (Option GoError)
  pipelineWaitOnUploads : Option Pipeline → Res Unit
  sourceRun : Source → Res (Option GoError)
  CompletedError : GoError
  GetProtocolFirstBlock : Nat

/-- The outcome of running a method: the events in order, the final state of
the indexer and how the method ended. -/
structure Run (α : Type) where
  trace : List Event
  state : IndexerBigQuery
  res : Res α

/-- A method of `*IndexerBigQuery`. -/
def Prog (α : Type) : Type := IndexerBigQuery → Run α

/-- A method that returns at once. -/
def Prog.pure {α : Type} (a : α) : Prog α := fun i => ⟨[], i, .ret a⟩

/-- Sequencing: the second part runs only when the first one returned. -/
def Prog.bind {α β : Type} (m : Prog α) (f : α → Prog β) : Prog β := fun i =>
  match m i with
  | ⟨t, i1, .ret a⟩ =>
    match f a i1 with
    | ⟨t2, i2, r⟩ => ⟨t ++ t2, i2, r⟩
  | ⟨t, i1, .panicked p⟩ => ⟨t, i1, .panicked p⟩
  | ⟨t, i1, .blocked⟩ => ⟨t, i1, .blocked⟩

instance : Monad Prog where
  pure := Prog.pure
  bind := Prog.bind

/-- Record one event. -/
def emit (e : Event) : Prog Unit := fun i => ⟨[e], i, .ret ()⟩

/-- Read the receiver. -/
def getIndexer : Prog IndexerBigQuery := fun i => ⟨[], i, .ret i⟩

/-- Update the receiver. -/
def setIndexer (f : IndexerBigQuery → IndexerBigQuery) : Prog Unit := fun i => ⟨[], f i, .ret ()⟩

/-- End the way a callee ended. -/
def finish {α : Type} (r : Res α) : Prog α := fun i => ⟨[], i, r⟩

/-- The call `zlog.Info(msg, ...)`; the structured fields are not recorded. -/
def zlogInfo (msg : String) : Prog Unit := emit (.zlog .info (ascii msg))

/-- The call `zlog.Error(msg, ...)`; the structured fields are not recorded. -/
def zlogError (msg : String) : Prog Unit := emit (.zlog .error (ascii msg))

/-- Go integer remainder on unsigned operands: a zero divisor panics. -/
def goMod (a b : Nat) : Res Nat :=
  if b = 0 then .panicked .integerDivideByZero else .ret (a % b)

/-! ## indexer.go: Bootstrap -/

/-- The configuration error of `Bootstrap`, built by `fmt.Errorf`. -/
def errBoundary (startBlockNum : Nat) : GoError :=
  ⟨ascii "indexer only starts RIGHT BEFORE the index boundaries, did you specify an irreversible block_id with a round number? It says "
    ++ fmtUint startBlockNum⟩

/-- The call `i.pipeline.Bootstrap(n)`. -/
def pipelineBootstrap (c : Collaborators) (n : Nat) : Prog (Option GoError) := do
  emit (.pipelineBootstrap n)
  let i ← getIndexer
  finish (c.pipelineBootstrap i.pipeline n)

/-- The method `Bootstrap`. The left operand of `&&` is evaluated first. -/
def Bootstrap (c : Collaborators) (startBlockNum : Nat) : Prog (Option GoError) := do
  zlogInfo "bootstrapping from start blocknum"
  setIndexer fun i => { i with StartBlockNum := startBlockNum }
  let i ← getIndexer
  let r ← finish (goMod i.StartBlockNum i.shardSize)
  if r ≠ 0 && i.StartBlockNum ≠ 1 then
    return some (errBoundary i.StartBlockNum)
  else
    pipelineBootstrap c i.StartBlockNum

/-! ## indexer.go: cleanup, the termination hook and Launch -/

/-- The call `i.pipeline.WaitOnUploads()`. -/
def pipelineWaitOnUploads (c : Collaborators) : Prog Unit := do
  emit .pipelineWaitOnUploads
  let i ← getIndexer
  finish (c.pipelineWaitOnUploads i.pipeline)

/-- The method `cleanup`. -/
def cleanup (c : Collaborators) : Prog Unit := do
  zlogInfo "cleaning up indexer"
  emit (.shuttingDownStore true)
  setIndexer fun i => { i with shuttingDown := true }
  zlogInfo "waiting on uploads"
  pipelineWaitOnUploads c
  emit .zlogSync
  zlogInfo "indexer shutdown complete"

/-- Modelled from the spec: the call `i.source.Shutdown(e)` on the absent
`bstream.Source`. A nil interface panics; otherwise the call is idempotent: a
source that has not terminated yet terminates with `e`. -/
def sourceShutdown (e : Option GoError) : Prog Unit := do
  let i ← getIndexer
  match i.source with
  | none => finish (.panicked .nilDereference)
  | some _ =>
    emit (.sourceShutdown e)
    if i.sourceTerminated then
      pure ()
    else
      setIndexer fun i => { i with sourceTerminated := true, sourceErr := e }

/-- The closure that `Launch` registers with `OnTerminating`. -/
def launchTerminating (c : Collaborators) (e : Option GoError) : Prog Unit := do
  zlogInfo "shutting down indexer's source"
  sourceShutdown e
  zlogInfo "shutting down indexer"
  cleanup c

/-- Run one registered hook. -/
def Hook.call (c : Collaborators) (e : Option GoError) : Hook → Prog Unit
  | .launchHook => launchTerminating c e

/-- Run the registered hooks in order with the shutdown value. -/
def callHooks (c : Collaborators) (e : Option GoError) : List Hook → Prog Unit
  | [] => pure ()
  | f :: fs => do
    f.call c e
    callHooks c e fs

/-- Modelled from the spec: `OnTerminating(f)` of the absent shutter registers
a termination hook. -/
def OnTerminating (f : Hook) : Prog Unit := do
  emit (.OnTerminating f)
  setIndexer fun i => { i with shutter := { i.shutter with calls := i.shutter.calls ++ [f] } }

/-- Modelled from the spec: `Shutdown(e)` of the absent shutter gives the
single shutdown signal. The first call stores `e` and runs the registered
termination hooks with it before it returns; later calls do nothing. -/
def Shutdown (c : Collaborators) (e : Option GoError) : Prog Unit := do
  emit (.Shutdown e)
  let i ← getIndexer
  if i.shutter.fired then
    pure ()
  else
    setIndexer fun i => { i with shutter := { i.shutter with fired := true, err := e } }
    callHooks c e i.shutter.calls

/-- Modelled from the spec: the method `serveHealthz` is absent from the
sources; the spec says the health endpoint runs concurrently and only inspects
the ready and shutting-down flags, so the call returns and changes nothing. -/
def serveHealthz : Prog Unit := emit .serveHealthz

/-- The call `i.source.Run()`: a nil interface panics; otherwise the call ends
as the collaborator says and, when it returns, the source has terminated with
the terminal error. -/
def sourceRun (c : Collaborators) : Prog Unit := do
  let i ← getIndexer
  match i.source with
  | none => finish (.panicked .nilDereference)
  | some s =>
    emit .sourceRun
    let e ← finish (c.sourceRun s)
    setIndexer fun i => { i with sourceTerminated := true, sourceErr := e }

/-- The call `i.source.Err()`. -/
def sourceErr : Prog (Option GoError) := do
  let i ← getIndexer
  match i.source with
  | none => finish (.panicked .nilDereference)
  | some _ => pure i.sourceErr

/-- The method `Launch`. -/
def Launch (c : Collaborators) : Prog Unit := do
  OnTerminating .launchHook
  serveHealthz
  zlogInfo "launching pipeline"
  sourceRun c
  let err ← sourceErr
  match err with
  | some err =>
    if HasSuffix err.Error c.CompletedError.Error then
      zlogInfo "Search Indexing completed successfully"
      Shutdown c none
    else
      zlogError "search indexer source terminated with error"
      let e ← sourceErr
      Shutdown c e
  | none =>
    let e ← sourceErr
    Shutdown c e

/-! ## indexer.go: the two pipelines -/

/-- Modelled from the spec: the method `newPipeline` is absent from the
sources; it builds the downstream pipeline around the block mapper. -/
def newPipeline (blockMapper : BlockMapper) : Pipeline := ⟨blockMapper⟩

/-- The closure `sf` of `BuildLivePipeline`, a `bstream.SourceFromRefFactory`.
It captures `pipe` and `fileSourceStartBlockNum` and reads the indexer. -/
def liveSourceFromRef (c : Collaborators) (_pipe : Pipeline) (fileSourceStartBlockNum : Nat)
    (i : IndexerView) (startBlockRef : BlockRef) (h : Handler) : FactoryCall :=
  let firstCall := startBlockRef.ID == []
  let startBlockNum := if firstCall then fileSourceStartBlockNum else startBlockRef.Num
  let handler := if firstCall then h else Handler.NewBlockIDGate startBlockRef.ID .GateExclusive h
  let jsOptions : List JoiningSourceOption :=
    if firstCall then [] else [] ++ [.JoiningSourceTargetBlockID startBlockRef.ID]
  let liveSourceFactory : Handler → BlockstreamSource := fun subHandler =>
    { endpointURL := i.blockstreamAddr, burst := 250, h := subHandler }
  let fileSourceFactory : Handler → FileSource := fun subHandler =>
    { blocksStore := i.blocksStore
      startBlockNum := startBlockNum
      parallelDownloads := 2
      preprocFunc := none
      h := subHandler
      logger := i.Verbose }
  let protocolFirstBlock := c.GetProtocolFirstBlock
  let jsOptions :=
    if protocolFirstBlock > 0 then
      jsOptions ++ [.JoiningSourceTargetBlockNum c.GetProtocolFirstBlock]
    else jsOptions
  { trace := [.pipelineSetCatchUpMode]
    js := { fileSourceFactory := fileSourceFactory
            liveSourceFactory := liveSourceFactory
            h := handler
            options := jsOptions } }

/-- The `forkable` options both pipelines build, after the filter option. -/
def withPreviousLIB (options : List ForkableOption) (previousIrreversibleID : GoString)
    (fileSourceStartBlockNum : Nat) : List ForkableOption :=
  if previousIrreversibleID ≠ [] then
    options ++ [.WithInclusiveLIB (NewBlockRef previousIrreversibleID fileSourceStartBlockNum)]
  else options

/-- The method `BuildLivePipeline`. -/
def BuildLivePipeline (c : Collaborators) (targetStartBlockNum fileSourceStartBlockNum : Nat)
    (previousIrreversibleID : GoString) : Prog Unit := do
  let i ← getIndexer
  let pipe := newPipeline i.blockMapper
  let sf := liveSourceFromRef c pipe fileSourceStartBlockNum
  let options : List ForkableOption := [.WithFilters (StepMask.or [.StepNew] [.StepIrreversible])]
  let options := withPreviousLIB options previousIrreversibleID fileSourceStartBlockNum
  let gate := Handler.NewIrreversibleBlockNumGate targetStartBlockNum .GateInclusive (.pipe pipe)
  let forkableHandler := Handler.forkableNew gate options
  let es := Source.NewEternalSource sf forkableHandler
  setIndexer fun i =>
    { i with source := some es, pipeline := some pipe, sourceTerminated := false, sourceErr := none }

/-- The method `BuildBatchPipeline`. The gate is recorded with the hold-off
the source assigns to it right after its construction. -/
def BuildBatchPipeline (targetStartBlockNum fileSourceStartBlockNum : Nat)
    (previousIrreversibleID : GoString) : Prog Unit := do
  let i ← getIndexer
  let pipe := newPipeline i.blockMapper
  let gate := Handler.NewBlockNumGate targetStartBlockNum .GateInclusive 0 (.pipe pipe)
  let options : List ForkableOption := [.WithFilters [.StepIrreversible]]
  let options := withPreviousLIB options previousIrreversibleID fileSourceStartBlockNum
  let forkableHandler := Handler.forkableNew gate options
  let fs : FileSource :=
    { blocksStore := i.blocksStore
      startBlockNum := fileSourceStartBlockNum
      parallelDownloads := 2
      preprocFunc := some pipe.mapper
      h := forkableHandler
      logger := i.Verbose }
  setIndexer fun i =>
    { i with source := some (.fileSource fs), pipeline := some pipe,
             sourceTerminated := false, sourceErr := none }
  emit .pipelineSetCatchUpMode

/-! ## Reading a handler chain -/

/-- One stage of a handler chain. -/
inductive Stage where
  | pipeline (p : Pipeline)
  | blockIDGate (blockID : GoString) (gateType : GateType)
  | blockNumGate (blockNum : Nat) (gateType : GateType)
  | irreversibleBlockNumGate (blockNum : Nat) (gateType : GateType)
  | forkResolver (opts : List ForkableOption)
deriving DecidableEq, Repr

/-- The stages a block passes through, from the handler the source delivers
to down to the innermost wrapped handler. -/
def Handler.stages : Handler → List Stage
  | .pipe p => [.pipeline p]
  | .NewBlockIDGate id gt h => .blockIDGate id gt :: h.stages
  | .NewBlockNumGate n gt _ h => .blockNumGate n gt :: h.stages
  | .NewIrreversibleBlockNumGate n gt h => .irreversibleBlockNumGate n gt :: h.stages
  | .forkableNew h opts => .forkResolver opts :: h.stages

/-- Whether a stage is the number gate with the given threshold and mode. -/
def Stage.isNumGate (n : Nat) (gt : GateType) : Stage → Bool
  | .blockNumGate m g => m == n && g == gt
  | .irreversibleBlockNumGate m g => m == n && g == gt
  | _ => false

/-- Whether a stage is a fork resolver. -/
def Stage.isForkResolver : Stage → Bool
  | .forkResolver _ => true
  | _ => false

/-- Whether a stage is the downstream pipeline. -/
def Stage.isPipeline : Stage → Bool
  | .pipeline _ => true
  | _ => false

/-- The handler a source was constructed with. -/
def Source.handler : Source → Handler
  | .fileSource fs => fs.h
  | .NewEternalSource _ h => h

/-- The step filter an option sets, if it is a filter option. -/
def ForkableOption.filter : ForkableOption → Option StepMask
  | .WithFilters steps => some steps
  | .WithInclusiveLIB _ => none

/-- The step filters given to the fork resolvers of a handler chain. -/
def Handler.filters (h : Handler) : List StepMask :=
  h.stages.flatMap fun s =>
    match s with
    | .forkResolver opts => opts.filterMap ForkableOption.filter
    | _ => []

/-- The join target identifiers among the options of a joining source. -/
def targetBlockIDs (options : List JoiningSourceOption) : List GoString :=
  options.filterMap fun o =>
    match o with
    | .JoiningSourceTargetBlockID id => some id
    | .JoiningSourceTargetBlockNum _ => none

/-! ## Reading a trace -/

/-- The events of `cleanup` up to and including the call of `WaitOnUploads`. -/
def cleanupHead : List Event :=
  [.zlog .info (ascii "cleaning up indexer"), .shuttingDownStore true,
   .zlog .info (ascii "waiting on uploads"), .pipelineWaitOnUploads]

/-- The events of `cleanup` that follow the call of `WaitOnUploads`; they
occur only when that call returned. -/
def cleanupTail : Res Unit → List Event
  | .ret _ => [.zlogSync, .zlog .info (ascii "indexer shutdown complete")]
  | _ => []

/-- The events of the termination hook before it enters `cleanup`. -/
def hookHead (e : Option GoError) : List Event :=
  [.zlog .info (ascii "shutting down indexer's source"), .sourceShutdown e,
   .zlog .info (ascii "shutting down indexer")]

/-- The values given to `Shutdown` of the indexer in a trace, in order. -/
def shutdownCalls (t : List Event) : List (Option GoError) :=
  t.filterMap fun ev =>
    match ev with
    | .Shutdown e => some e
    | _ => none

/-- The state of the object behind `source` after `Shutdown(e)` on it. -/
def afterSourceShutdown (e : Option GoError) (i : IndexerBigQuery) : IndexerBigQuery :=
  if i.sourceTerminated then i else { i with sourceTerminated := true, sourceErr := e }

/-- Specification side: the value `Launch` is said to shut the indexer down
with, given the completion message and the terminal error of the source: nil
for no error and for an error whose text ends with the completion message, the
error itself otherwise. -/
def launchVerdict (completed : GoString) : Option GoError → Option GoError
  | none => none
  | some err => if completed <:+ err.text then none else some err

/-- The events of `Launch` up to and including the call of `Run` on the
source. -/
def launchHead : List Event :=
  [.OnTerminating .launchHook, .serveHealthz, .zlog .info (ascii "launching pipeline"),
   .sourceRun]

/-- The log line `Launch` writes once it has read the terminal error. -/
def verdictLog (completed : GoString) : Option GoError → List Event
  | none => []
  | some err =>
    if HasSuffix err.Error completed then
      [.zlog .info (ascii "Search Indexing completed successfully")]
    else
      [.zlog .error (ascii "search indexer source terminated with error")]

/-- The indexer when `Run` of its source has returned with a terminal error,
the hook of `Launch` being registered. -/
def afterRun (e : Option GoError) (i : IndexerBigQuery) : IndexerBigQuery :=
  { i with shutter := { i.shutter with calls := i.shutter.calls ++ [.launchHook] },
           sourceTerminated := true, sourceErr := e }

/-- The value `Launch` passes to `Shutdown`, read off the code. -/
def shutdownValue (completed : GoString) : Option GoError → Option GoError
  | none => none
  | some err => if HasSuffix err.Error completed then none else some err

/-- Put events in front of the trace of an outcome. -/
def Run.after {α : Type} (t : List Event) (r : Run α) : Run α :=
  ⟨t ++ r.trace, r.state, r.res⟩

/-- The handler chain of the source the indexer holds, in the order a block
delivered by that source passes through it. -/
def IndexerBigQuery.stages (i : IndexerBigQuery) : List Stage :=
  match i.source with
  | some s => s.handler.stages
  | none => []

/-- The step filters given to the fork resolvers of the source the indexer
holds. -/
def IndexerBigQuery.filters (i : IndexerBigQuery) : List StepMask :=
  match i.source with
  | some s => s.handler.filters
  | none => []

/-- Specification side: the chain is the number gate on the target (inclusive),
then a fork resolver, then the pipeline. -/
def gateThenForkResolver (targetStartBlockNum : Nat) : List Stage → Bool
  | [g, f, p] => g.isNumGate targetStartBlockNum .GateInclusive && f.isForkResolver && p.isPipeline
  | _ => false

/-- The chain is a fork resolver, then the number gate on the target
(inclusive), then the pipeline. -/
def forkResolverThenGate (targetStartBlockNum : Nat) : List Stage → Bool
  | [f, g, p] => f.isForkResolver && g.isNumGate targetStartBlockNum .GateInclusive && p.isPipeline
  | _ => false

/-! ## Concrete inputs used to exercise the statements -/

/-- Collaborators that always return: the pipeline accepts every start block,
uploads drain, and the source ends with the given terminal error. -/
def quietCollaborators (terminal : Option GoError) : Collaborators :=
  { pipelineBootstrap := fun _ _ => .ret none
    pipelineWaitOnUploads := fun _ => .ret ()
    sourceRun := fun _ => .ret terminal
    CompletedError := ⟨ascii "completed"⟩
    GetProtocolFirstBlock := 0 }

/-- An indexer as `NewIndexerBigQuery` returns it, with the given shard size. -/
def sampleIndexer (shardSize : Nat) : IndexerBigQuery :=
  NewIndexerBigQuery ⟨0⟩ ⟨1⟩ (ascii ":9000") ⟨0⟩ (ascii "/tmp") shardSize (ascii ":9001")

/-- The sample indexer after `BuildBatchPipeline(100, 100, "")`. -/
def sampleBatchIndexer : IndexerBigQuery :=
  (BuildBatchPipeline 100 100 [] (sampleIndexer 100)).state

/-- The sample indexer after `BuildLivePipeline(100, 100, "")`. -/
def sampleLiveIndexer : IndexerBigQuery :=
  (BuildLivePipeline (quietCollaborators none) 100 100 [] (sampleIndexer 100)).state

/-- An error whose text starts with the sample completion message and goes on. -/
def sampleWrappingError : GoError := ⟨ascii "completed, then failed"⟩

/-- An error that wraps the sample completion message at its end. -/
def sampleWrappedError : GoError := ⟨ascii "file source: completed"⟩

/-- An error unrelated to completion. -/
def sampleReadError : GoError := ⟨ascii "archive read failed"⟩

/-- The sample batch indexer after a first `Shutdown(nil)`, given before
`Launch` is called: no hook was registered yet, so none ran. -/
def sampleShutDownIndexer : IndexerBigQuery :=
  (Shutdown (quietCollaborators (some sampleReadError)) none sampleBatchIndexer).state

/-! ## Lemmas on programs -/

theorem bind_apply {α β : Type} (m : Prog α) (f : α → Prog β) (i : IndexerBigQuery) :
    (m >>= f) i = Prog.bind m f i := rfl

theorem pure_apply {α : Type} (a : α) (i : IndexerBigQuery) :
    (pure a : Prog α) i = ⟨[], i, .ret a⟩ := rfl

theorem goMod_pos (a b : Nat) (h : 0 < b) : goMod a b = .ret (a % b) := by
  unfold goMod
  rw [if_neg (Nat.pos_iff_ne_zero.mp h)]

theorem goMod_zero (a : Nat) : goMod a 0 = .panicked .integerDivideByZero := by
  simp [goMod]

theorem Bootstrap_zero (c : Collaborators) (i : IndexerBigQuery) (n : Nat)
    (h : i.shardSize = 0) :
    Bootstrap c n i =
      ⟨[.zlog .info (ascii "bootstrapping from start blocknum")],
       { i with StartBlockNum := n }, .panicked .integerDivideByZero⟩ := by
  simp [Bootstrap, bind_apply, Prog.bind, zlogInfo, emit, setIndexer, getIndexer, finish, h,
    goMod_zero]

theorem Bootstrap_misaligned (c : Collaborators) (i : IndexerBigQuery) (n : Nat)
    (h : 0 < i.shardSize) (hm : n % i.shardSize ≠ 0 ∧ n ≠ 1) :
    Bootstrap c n i =
      ⟨[.zlog .info (ascii "bootstrapping from start blocknum")],
       { i with StartBlockNum := n }, .ret (some (errBoundary n))⟩ := by
  simp [Bootstrap, bind_apply, pure_apply, Prog.bind, zlogInfo, emit, setIndexer, getIndexer,
    finish, goMod_pos _ _ h, hm.1, hm.2]

theorem Bootstrap_aligned (c : Collaborators) (i : IndexerBigQuery) (n : Nat)
    (h : 0 < i.shardSize) (hm : ¬ (n % i.shardSize ≠ 0 ∧ n ≠ 1)) :
    Bootstrap c n i =
      ⟨[.zlog .info (ascii "bootstrapping from start blocknum"), .pipelineBootstrap n],
       { i with StartBlockNum := n }, c.pipelineBootstrap i.pipeline n⟩ := by
  have hm2 : n % i.shardSize = 0 ∨ n = 1 := by
    by_cases h0 : n % i.shardSize = 0
    · exact Or.inl h0
    · by_cases h1 : n = 1
      · exact Or.inr h1
      · exact absurd ⟨h0, h1⟩ hm
  have hc : (!decide (n % i.shardSize = 0) && !decide (n = 1)) = false := by
    rcases hm2 with h0 | h1
    · simp [h0]
    · simp [h1]
  simp only [Bootstrap, bind_apply, pure_apply, Prog.bind, zlogInfo, emit, setIndexer,
    getIndexer, finish, goMod_pos _ _ h, pipelineBootstrap]
  simp only [ne_eq, decide_not, hc]
  cases hr : c.pipelineBootstrap i.pipeline n <;>
    simp [bind_apply, Prog.bind, emit, getIndexer, finish, hr]

theorem bind_eq {α β : Type} (m : Prog α) (f : α → Prog β) (i : IndexerBigQuery) :
    Prog.bind m f i =
      match (m i).res with
      | .ret a =>
        ⟨(m i).trace ++ (f a (m i).state).trace, (f a (m i).state).state, (f a (m i).state).res⟩
      | .panicked p => ⟨(m i).trace, (m i).state, .panicked p⟩
      | .blocked => ⟨(m i).trace, (m i).state, .blocked⟩ := by
  unfold Prog.bind
  rcases hm : m i with ⟨t, i1, r⟩
  cases r <;> simp

theorem cleanup_eq (c : Collaborators) (i : IndexerBigQuery) :
    cleanup c i =
      ⟨cleanupHead ++ cleanupTail (c.pipelineWaitOnUploads i.pipeline),
       { i with shuttingDown := true }, c.pipelineWaitOnUploads i.pipeline⟩ := by
  cases hw : c.pipelineWaitOnUploads i.pipeline <;>
    simp [cleanup, pipelineWaitOnUploads, bind_apply, Prog.bind, zlogInfo, emit, setIndexer,
      getIndexer, finish, hw, cleanupHead, cleanupTail]

theorem launchTerminating_eq (c : Collaborators) (e : Option GoError) (i : IndexerBigQuery)
    (s : Source) (hs : i.source = some s) :
    launchTerminating c e i =
      ⟨hookHead e ++ (cleanupHead ++ cleanupTail (c.pipelineWaitOnUploads i.pipeline)),
       { afterSourceShutdown e i with shuttingDown := true },
       c.pipelineWaitOnUploads i.pipeline⟩ := by
  have h1 : sourceShutdown e i = ⟨[.sourceShutdown e], afterSourceShutdown e i, .ret ()⟩ := by
    cases ht : i.sourceTerminated <;>
      simp [sourceShutdown, bind_apply, pure_apply, Prog.bind, Prog.pure, emit, setIndexer,
        getIndexer, hs, ht, afterSourceShutdown]
  have h2 : (afterSourceShutdown e i).pipeline = i.pipeline := by
    unfold afterSourceShutdown
    split <;> rfl
  simp only [launchTerminating, bind_apply, bind_eq, zlogInfo, emit, h1, cleanup_eq, h2]
  simp [hookHead]

theorem HasSuffix_iff (s suffix : GoString) : HasSuffix s suffix = true ↔ suffix <:+ s := by
  unfold HasSuffix
  simp only [Bool.and_eq_true, decide_eq_true_eq, beq_iff_eq, ge_iff_le]
  constructor
  · rintro ⟨_, h⟩
    exact List.suffix_iff_eq_drop.mpr h.symm
  · intro h
    exact ⟨h.length_le, (List.suffix_iff_eq_drop.mp h).symm⟩

theorem shutdownValue_eq_launchVerdict (completed : GoString) (e : Option GoError) :
    shutdownValue completed e = launchVerdict completed e := by
  cases e with
  | none => rfl
  | some err =>
    by_cases h : completed <:+ err.text
    · simp [shutdownValue, launchVerdict, GoError.Error, h, (HasSuffix_iff _ _).mpr h]
    · have h2 : HasSuffix err.text completed = false := by
        cases hb : HasSuffix err.text completed
        · rfl
        · exact absurd ((HasSuffix_iff _ _).mp hb) h
      simp [shutdownValue, launchVerdict, GoError.Error, h, h2]

theorem Launch_eq (c : Collaborators) (i : IndexerBigQuery) (s : Source)
    (e : Option GoError) (hs : i.source = some s) (hr : c.sourceRun s = .ret e) :
    Launch c i =
      Run.after (launchHead ++ verdictLog c.CompletedError.Error e)
        (Shutdown c (shutdownValue c.CompletedError.Error e) (afterRun e i)) := by
  cases e with
  | none =>
    simp [Launch, OnTerminating, serveHealthz, sourceRun, sourceErr, zlogInfo, emit,
      setIndexer, getIndexer, finish, bind_apply, bind_eq, pure_apply, Prog.pure, hs, hr,
      Run.after, launchHead, verdictLog, shutdownValue, afterRun]
  | some err =>
    by_cases hc : HasSuffix err.Error c.CompletedError.Error = true
    · simp [Launch, OnTerminating, serveHealthz, sourceRun, sourceErr, zlogInfo, emit,
        setIndexer, getIndexer, finish, bind_apply, bind_eq, pure_apply, Prog.pure, hs, hr,
        Run.after, launchHead, verdictLog, shutdownValue, afterRun, hc]
    · simp [Launch, OnTerminating, serveHealthz, sourceRun, sourceErr, zlogInfo, zlogError, emit,
        setIndexer, getIndexer, finish, bind_apply, bind_eq, pure_apply, Prog.pure, hs, hr,
        Run.after, launchHead, verdictLog, shutdownValue, afterRun, hc]

theorem launchTerminating_nil (c : Collaborators) (e : Option GoError) (i : IndexerBigQuery)
    (hs : i.source = none) :
    launchTerminating c e i =
      ⟨[.zlog .info (ascii "shutting down indexer's source")], i, .panicked .nilDereference⟩ := by
  simp [launchTerminating, sourceShutdown, bind_apply, bind_eq, zlogInfo, emit, getIndexer,
    finish, hs]

theorem shutdownCalls_append (t u : List Event) :
    shutdownCalls (t ++ u) = shutdownCalls t ++ shutdownCalls u := by
  simp [shutdownCalls, List.filterMap_append]

theorem shutdownCalls_cleanupTail (w : Res Unit) : shutdownCalls (cleanupTail w) = [] := by
  cases w <;> simp [cleanupTail, shutdownCalls]

theorem launchTerminating_calls (c : Collaborators) (e : Option GoError) (i : IndexerBigQuery) :
    shutdownCalls (launchTerminating c e i).trace = [] := by
  cases hs : i.source with
  | none => simp [launchTerminating_nil c e i hs, shutdownCalls]
  | some s =>
    rw [launchTerminating_eq c e i s hs]
    simp only [shutdownCalls_append, shutdownCalls_cleanupTail]
    simp [shutdownCalls, hookHead, cleanupHead]

theorem callHooks_cons (c : Collaborators) (e : Option GoError) (f : Hook) (fs : List Hook)
    (i : IndexerBigQuery) :
    callHooks c e (f :: fs) i =
      Prog.bind (launchTerminating c e) (fun _ => callHooks c e fs) i := by
  cases f
  rfl

theorem callHooks_calls (c : Collaborators) (e : Option GoError) (fs : List Hook) :
    ∀ i : IndexerBigQuery, shutdownCalls (callHooks c e fs i).trace = [] := by
  induction fs with
  | nil =>
    intro i
    simp [callHooks, pure_apply, shutdownCalls]
  | cons f fs ih =>
    intro i
    rw [callHooks_cons, bind_eq]
    have h := launchTerminating_calls c e i
    cases hr : (launchTerminating c e i).res <;>
      simp [shutdownCalls_append, h, ih]

theorem Shutdown_fired (c : Collaborators) (e : Option GoError) (i : IndexerBigQuery)
    (h : i.shutter.fired = true) : Shutdown c e i = ⟨[.Shutdown e], i, .ret ()⟩ := by
  simp [Shutdown, bind_apply, bind_eq, emit, getIndexer, h, Prog.pure, pure_apply]

theorem Shutdown_fresh (c : Collaborators) (e : Option GoError) (i : IndexerBigQuery)
    (h : i.shutter.fired = false) :
    Shutdown c e i =
      Run.after [.Shutdown e]
        (callHooks c e i.shutter.calls
          { i with shutter := { i.shutter with fired := true, err := e } }) := by
  simp [Shutdown, bind_apply, bind_eq, emit, getIndexer, setIndexer, h, Run.after]

theorem Shutdown_calls (c : Collaborators) (e : Option GoError) (i : IndexerBigQuery) :
    shutdownCalls (Shutdown c e i).trace = [e] := by
  cases h : i.shutter.fired with
  | true => simp [Shutdown_fired c e i h, shutdownCalls]
  | false =>
    rw [Shutdown_fresh c e i h]
    simp only [Run.after, shutdownCalls_append, callHooks_calls]
    simp [shutdownCalls]

theorem shutdownCalls_launchHead (completed : GoString) (e : Option GoError) :
    shutdownCalls (launchHead ++ verdictLog completed e) = [] := by
  cases e with
  | none => simp [shutdownCalls, launchHead, verdictLog]
  | some err =>
    by_cases h : HasSuffix err.Error completed = true <;>
      simp [shutdownCalls, launchHead, verdictLog, h]

theorem Launch_calls (c : Collaborators) (i : IndexerBigQuery) (s : Source)
    (e : Option GoError) (hs : i.source = some s) (hr : c.sourceRun s = .ret e) :
    shutdownCalls (Launch c i).trace = [shutdownValue c.CompletedError.Error e] := by
  rw [Launch_eq c i s e hs hr]
  simp only [Run.after]
  rw [shutdownCalls_append, shutdownCalls_launchHead, Shutdown_calls]
  rfl

theorem callHooks_first (c : Collaborators) (e : Option GoError) (f : Hook) (fs : List Hook)
    (i : IndexerBigQuery) (s : Source) (hs : i.source = some s) :
    ∃ rest, (callHooks c e (f :: fs) i).trace = hookHead e ++ (cleanupHead ++ rest) ∧
      ((callHooks c e (f :: fs) i).res = .ret () →
        c.pipelineWaitOnUploads i.pipeline = .ret ()) := by
  rw [callHooks_cons, bind_eq, launchTerminating_eq c e i s hs]
  cases hw : c.pipelineWaitOnUploads i.pipeline with
  | ret u =>
    refine ⟨cleanupTail (.ret u) ++
      (callHooks c e fs { afterSourceShutdown e i with shuttingDown := true }).trace, ?_,
      fun _ => rfl⟩
    simp only [List.append_assoc]
  | panicked p =>
    exact ⟨[], by simp [cleanupTail], fun h => by cases h⟩
  | blocked =>
    exact ⟨[], by simp [cleanupTail], fun h => by cases h⟩

theorem Launch_failure (c : Collaborators) (i : IndexerBigQuery) (s : Source) (err : GoError)
    (hs : i.source = some s) (hf : i.shutter.fired = false)
    (hr : c.sourceRun s = .ret (some err))
    (hc : HasSuffix err.Error c.CompletedError.Error = false) :
    ∃ rest, (Launch c i).trace =
        launchHead ++
          ([.zlog .error (ascii "search indexer source terminated with error"),
            .Shutdown (some err)] ++ (hookHead (some err) ++ (cleanupHead ++ rest))) ∧
      ((Launch c i).res = .ret () → c.pipelineWaitOnUploads i.pipeline = .ret ()) := by
  have hv : shutdownValue c.CompletedError.Error (some err) = some err := by
    simp [shutdownValue, hc]
  rw [Launch_eq c i s (some err) hs hr, hv, Shutdown_fresh c _ (afterRun (some err) i) hf]
  have hcalls : (afterRun (some err) i).shutter.calls = i.shutter.calls ++ [.launchHook] := rfl
  obtain ⟨f, fs, hfs⟩ : ∃ f fs, i.shutter.calls ++ [Hook.launchHook] = f :: fs := by
    cases i.shutter.calls with
    | nil => exact ⟨_, _, rfl⟩
    | cons a l => exact ⟨_, _, rfl⟩
  rw [hcalls, hfs]
  obtain ⟨rest, h1, h2⟩ := callHooks_first c (some err) f fs
    { afterRun (some err) i with
      shutter := { (afterRun (some err) i).shutter with fired := true, err := some err } } s hs
  refine ⟨rest, ?_, ?_⟩
  · simp only [Run.after, h1]
    simp [verdictLog, hc, List.append_assoc]
  · intro h
    exact h2 h

set_option maxRecDepth 100000 in
theorem registryError_names (x y : RegistryEntry) :
    namesEntry x.error y = true ↔ y = x := by
  cases x <;> cases y <;> decide

/-! ## registry.go: ValidateRegistry -/

/-- Claim C9. For every state of the four registry variables, `ValidateRegistry`
returns nil if and only if the match collector, the bleve query factory, the
search match factory and the indexed fields map are all set. When at least one
is unset it returns an error whose text names the first unset entry in that
order, by its words and by the name of its variable, and names no other entry. -/
theorem ValidateRegistry_first_unset {A B C D : Type} (r : Registry A B C D) :
    (ValidateRegistry r = none ↔
      (r.GetMatchCollector.isSome = true ∧ r.GetBleveQueryFactory.isSome = true ∧
        r.GetSearchMatchFactory.isSome = true ∧ r.GetIndexedFieldsMap.isSome = true)) ∧
    ValidateRegistry r = (firstUnset r).map RegistryEntry.error ∧
    (∀ a b : RegistryEntry, a.error = b.error → a = b) ∧
    (∀ x : RegistryEntry, firstUnset r = some x →
      ∃ err, ValidateRegistry r = some err ∧
        ∀ y : RegistryEntry, namesEntry err y = true ↔ y = x) ∧
    (firstUnset r = none ↔ ValidateRegistry r = none) := by
  have hmap : ValidateRegistry r = (firstUnset r).map RegistryEntry.error := by
    rcases r with ⟨sm, mc, bq, fm⟩
    cases sm <;> cases mc <;> cases bq <;> cases fm <;>
      simp [ValidateRegistry, firstUnset, registryOrder, RegistryEntry.unset, RegistryEntry.error,
        List.find?]
  refine ⟨?_, hmap, ?_, ?_, ?_⟩
  · rcases r with ⟨sm, mc, bq, fm⟩
    cases sm <;> cases mc <;> cases bq <;> cases fm <;> simp [ValidateRegistry]
  · intro a b h
    have key : ∀ x : RegistryEntry, x.error.text.get? 3 =
        (match x with
          | .matchCollector => some 109
          | .bleveQueryFactory => some 98
          | .searchMatchFactory => some 115
          | .indexedFieldsMap => some 105) := by
      intro x
      cases x <;> rfl
    have h2 := key a
    rw [h, key b] at h2
    cases a <;> cases b <;> first | rfl | (exact absurd h2 (by decide))
  · intro x hx
    refine ⟨x.error, by rw [hmap, hx]; rfl, ?_⟩
    intro y
    exact registryError_names x y
  · rw [hmap]
    cases firstUnset r <;> simp

/-! ## indexer.go: Bootstrap -/

/-- Claim C1. For every shard size above zero and every start block number,
`Bootstrap` returns the configuration error without calling `Bootstrap` of the
pipeline exactly when the start block number is neither a multiple of the
shard size nor the sentinel 1; in every other case it calls the pipeline with
that start block number and ends exactly as that call ends. -/
theorem Bootstrap_validates_boundary (c : Collaborators) (i : IndexerBigQuery)
    (startBlockNum : Nat) (h : 0 < i.shardSize) :
    ((startBlockNum % i.shardSize ≠ 0 ∧ startBlockNum ≠ 1) →
      (Bootstrap c startBlockNum i).res = .ret (some (errBoundary startBlockNum)) ∧
      ∀ n, Event.pipelineBootstrap n ∉ (Bootstrap c startBlockNum i).trace) ∧
    (¬ (startBlockNum % i.shardSize ≠ 0 ∧ startBlockNum ≠ 1) →
      (Bootstrap c startBlockNum i).res = c.pipelineBootstrap i.pipeline startBlockNum ∧
      (Bootstrap c startBlockNum i).trace.filter (fun ev => !ev.isLog) =
        [.pipelineBootstrap startBlockNum]) ∧
    (((Bootstrap c startBlockNum i).res = .ret (some (errBoundary startBlockNum)) ∧
        ∀ n, Event.pipelineBootstrap n ∉ (Bootstrap c startBlockNum i).trace) ↔
      (startBlockNum % i.shardSize ≠ 0 ∧ startBlockNum ≠ 1)) ∧
    (Bootstrap c startBlockNum i).state = { i with StartBlockNum := startBlockNum } := by
  by_cases hm : startBlockNum % i.shardSize ≠ 0 ∧ startBlockNum ≠ 1
  · rw [Bootstrap_misaligned c i startBlockNum h hm]
    simp [hm]
  · rw [Bootstrap_aligned c i startBlockNum h hm]
    refine ⟨fun h2 => absurd h2 hm, fun _ => ⟨rfl, by simp [Event.isLog]⟩, ?_, rfl⟩
    constructor
    · rintro ⟨_, h2⟩
      exact absurd (List.mem_cons_of_mem _ (List.mem_singleton.mpr rfl)) (h2 startBlockNum)
    · intro h2
      exact absurd h2 hm

/-- Scenario A of the specification: with shard size 100, `Bootstrap(100)`
passes validation and ends as the pipeline does, `Bootstrap(150)` returns the
configuration error. -/
theorem Bootstrap_validates_boundary_witness :
    0 < (sampleIndexer 100).shardSize ∧
    (Bootstrap (quietCollaborators none) 150 (sampleIndexer 100)).res =
      .ret (some (errBoundary 150)) ∧
    (Bootstrap (quietCollaborators none) 100 (sampleIndexer 100)).res = .ret none :=
  ⟨by decide,
   ((Bootstrap_validates_boundary (quietCollaborators none) (sampleIndexer 100) 150
      (by decide)).1 (by decide)).1,
   ((Bootstrap_validates_boundary (quietCollaborators none) (sampleIndexer 100) 100
      (by decide)).2.1 (by decide)).1⟩

/-- Claim C10. The boundary check of `Bootstrap` is total only for a shard size
other than zero. For a shard size above zero the remainder is defined and
`Bootstrap` returns the configuration error or ends as the pipeline call ends,
so it returns a value whenever that call does. For shard size zero the
remainder is evaluated first and panics with a division by zero for every
start block number, the sentinel 1 included, before the sentinel comparison
and before any call to the pipeline. -/
theorem Bootstrap_total_iff_shardSize_pos (c : Collaborators) (i : IndexerBigQuery)
    (startBlockNum : Nat) :
    (0 < i.shardSize →
      goMod startBlockNum i.shardSize = .ret (startBlockNum % i.shardSize) ∧
      (Bootstrap c startBlockNum i).res =
        (if startBlockNum % i.shardSize ≠ 0 ∧ startBlockNum ≠ 1 then
          .ret (some (errBoundary startBlockNum))
        else c.pipelineBootstrap i.pipeline startBlockNum) ∧
      (∀ v, c.pipelineBootstrap i.pipeline startBlockNum = .ret v →
        ∃ w, (Bootstrap c startBlockNum i).res = .ret w)) ∧
    (i.shardSize = 0 →
      goMod startBlockNum i.shardSize = .panicked .integerDivideByZero ∧
      (Bootstrap c startBlockNum i).res = .panicked .integerDivideByZero ∧
      (Bootstrap c startBlockNum i).trace =
        [.zlog .info (ascii "bootstrapping from start blocknum")]) ∧
    ((∃ w, (Bootstrap c startBlockNum i).res = .ret w) → i.shardSize ≠ 0) := by
  refine ⟨?_, ?_, ?_⟩
  · intro h
    refine ⟨goMod_pos _ _ h, ?_, ?_⟩
    · by_cases hm : startBlockNum % i.shardSize ≠ 0 ∧ startBlockNum ≠ 1
      · rw [Bootstrap_misaligned c i startBlockNum h hm, if_pos hm]
      · rw [Bootstrap_aligned c i startBlockNum h hm, if_neg hm]
    · intro v hv
      by_cases hm : startBlockNum % i.shardSize ≠ 0 ∧ startBlockNum ≠ 1
      · exact ⟨_, by rw [Bootstrap_misaligned c i startBlockNum h hm]⟩
      · exact ⟨v, by rw [Bootstrap_aligned c i startBlockNum h hm]; exact hv⟩
  · intro h
    rw [Bootstrap_zero c i startBlockNum h, h]
    exact ⟨goMod_zero _, rfl, rfl⟩
  · rintro ⟨w, hw⟩ h
    rw [Bootstrap_zero c i startBlockNum h] at hw
    cases hw

/-- With shard size 100 the check at 150 is defined and `Bootstrap` returns;
with shard size 0 `Bootstrap(1)` panics with a division by zero although 1 is
the sentinel. -/
theorem Bootstrap_total_iff_shardSize_pos_witness :
    (0 < (sampleIndexer 100).shardSize ∧
      goMod 150 (sampleIndexer 100).shardSize = .ret 50) ∧
    ((sampleIndexer 0).shardSize = 0 ∧
      (Bootstrap (quietCollaborators none) 1 (sampleIndexer 0)).res =
        .panicked .integerDivideByZero) :=
  ⟨⟨by decide,
    ((Bootstrap_total_iff_shardSize_pos (quietCollaborators none) (sampleIndexer 100) 150).1
      (by decide)).1⟩,
   ⟨rfl,
    ((Bootstrap_total_iff_shardSize_pos (quietCollaborators none) (sampleIndexer 0) 1).2.1
      rfl).2.1⟩⟩

/-! ## indexer.go: cleanup -/

/-- Claim C3. In every execution of `cleanup` the shutting-down flag is stored
as true before `WaitOnUploads` is called on the pipeline, and `cleanup` ends
exactly as `WaitOnUploads` ends, so it does not return unless that call has
returned. Apart from calls on the logger, the events of `cleanup` are exactly
the store of the flag followed by the call of `WaitOnUploads`. -/
theorem cleanup_flag_then_wait (c : Collaborators) (i : IndexerBigQuery) :
    (cleanup c i).trace.filter (fun ev => !ev.isLog) =
      [.shuttingDownStore true, .pipelineWaitOnUploads] ∧
    (cleanup c i).trace =
      [.zlog .info (ascii "cleaning up indexer"), .shuttingDownStore true,
       .zlog .info (ascii "waiting on uploads"), .pipelineWaitOnUploads] ++
      cleanupTail (c.pipelineWaitOnUploads i.pipeline) ∧
    (cleanup c i).state = { i with shuttingDown := true } ∧
    (cleanup c i).res = c.pipelineWaitOnUploads i.pipeline ∧
    ((cleanup c i).res = .ret () ↔ c.pipelineWaitOnUploads i.pipeline = .ret ()) := by
  rw [cleanup_eq]
  refine ⟨?_, rfl, rfl, rfl, Iff.rfl⟩
  cases c.pipelineWaitOnUploads i.pipeline <;>
    simp [cleanupHead, cleanupTail, Event.isLog]

/-! ## indexer.go: Launch -/

/-- Claim C2. For every terminal error of the source once `Run` has returned,
`Launch` calls `Shutdown` on the indexer exactly once: with nil when the
terminal error is nil or is the stream-completed sentinel, that is, when its
text ends with (in particular, when it equals) the text of `CompletedError`;
and with that same error, unchanged, for every other error. -/
theorem Launch_shutdown_value (c : Collaborators) (i : IndexerBigQuery) (s : Source)
    (e : Option GoError) (hs : i.source = some s) (hr : c.sourceRun s = .ret e) :
    shutdownCalls (Launch c i).trace = [launchVerdict c.CompletedError.text e] ∧
    (e = none → shutdownCalls (Launch c i).trace = [none]) ∧
    (∀ err, e = some err → c.CompletedError.text <:+ err.text →
      shutdownCalls (Launch c i).trace = [none]) ∧
    (∀ err, e = some err → err.text = c.CompletedError.text →
      shutdownCalls (Launch c i).trace = [none]) ∧
    (∀ err, e = some err → ¬ c.CompletedError.text <:+ err.text →
      shutdownCalls (Launch c i).trace = [some err]) := by
  have h : shutdownCalls (Launch c i).trace = [launchVerdict c.CompletedError.text e] := by
    rw [← shutdownValue_eq_launchVerdict]
    exact Launch_calls c i s e hs hr
  refine ⟨h, ?_, ?_, ?_, ?_⟩
  · intro he
    rw [h, he]
    rfl
  · intro err he hsuf
    rw [h, he]
    simp [launchVerdict, hsuf]
  · intro err he heq
    rw [h, he]
    simp [launchVerdict, heq]
  · intro err he hsuf
    rw [h, he]
    simp [launchVerdict, hsuf]

/-- A batch run whose source ends with an unrelated read error is shut down
with that error. -/
theorem Launch_shutdown_value_witness :
    sampleBatchIndexer.source.isSome = true ∧
    ¬ (quietCollaborators (some sampleReadError)).CompletedError.text <:+ sampleReadError.text ∧
    shutdownCalls (Launch (quietCollaborators (some sampleReadError)) sampleBatchIndexer).trace =
      [some sampleReadError] :=
  ⟨rfl, by decide,
   (Launch_shutdown_value (quietCollaborators (some sampleReadError)) sampleBatchIndexer
      (sampleBatchIndexer.source.get rfl) (some sampleReadError) rfl rfl).2.2.2.2
      sampleReadError rfl (by decide)⟩

/-- Claim C4, as stated, fails for a run on an indexer that was already shut
down: the sample batch indexer received `Shutdown(nil)` before `Launch`; its
source then ends with a fatal read error, `Launch` hands that error to
`Shutdown`, which does nothing the second time, and `Launch` returns without
any call of `WaitOnUploads`. -/
theorem Launch_after_shutdown_skips_wait :
    sampleShutDownIndexer.source.isSome = true ∧
    sampleShutDownIndexer.shutter.fired = true ∧
    HasSuffix sampleReadError.Error
      (quietCollaborators (some sampleReadError)).CompletedError.Error = false ∧
    shutdownCalls
      (Launch (quietCollaborators (some sampleReadError)) sampleShutDownIndexer).trace =
      [some sampleReadError] ∧
    (Launch (quietCollaborators (some sampleReadError)) sampleShutDownIndexer).res = .ret () ∧
    Event.pipelineWaitOnUploads ∉
      (Launch (quietCollaborators (some sampleReadError)) sampleShutDownIndexer).trace := by
  have h := Launch_eq (quietCollaborators (some sampleReadError)) sampleShutDownIndexer
    (sampleShutDownIndexer.source.get rfl) (some sampleReadError) rfl rfl
  rw [Shutdown_fired _ _ _ rfl] at h
  refine ⟨rfl, rfl, by decide, ?_, ?_, ?_⟩
  · rw [h]
    decide
  · rw [h]
    rfl
  · rw [h]
    decide

/-- Claim C4, amended. For every stop signal `e`, nil or an error, the
termination hook that `Launch` registers first calls `Shutdown(e)` on the
source with that same `e` and only then runs `cleanup`. Consequently, in every
run of `Launch` on an indexer that has not been shut down before, whose source
ends with a fatal error, the indexer is shut down with that error, the hook
calls `WaitOnUploads` on the pipeline, and `Launch` does not return unless
that call has returned. -/
theorem Launch_hook_shutdown_then_cleanup (c : Collaborators) (i : IndexerBigQuery)
    (s : Source) (hs : i.source = some s) :
    (∀ e : Option GoError,
      Hook.call c e .launchHook = launchTerminating c e ∧
      (launchTerminating c e i).trace =
        [.zlog .info (ascii "shutting down indexer's source"), .sourceShutdown e,
         .zlog .info (ascii "shutting down indexer")] ++
        (cleanup c (afterSourceShutdown e i)).trace ∧
      (launchTerminating c e i).res = (cleanup c (afterSourceShutdown e i)).res) ∧
    (∀ err : GoError, i.shutter.fired = false → c.sourceRun s = .ret (some err) →
      HasSuffix err.Error c.CompletedError.Error = false →
      (∃ rest, (Launch c i).trace =
        [.OnTerminating .launchHook, .serveHealthz,
         .zlog .info (ascii "launching pipeline"), .sourceRun] ++
        ([.zlog .error (ascii "search indexer source terminated with error"),
          .Shutdown (some err)] ++
        ([.zlog .info (ascii "shutting down indexer's source"), .sourceShutdown (some err),
          .zlog .info (ascii "shutting down indexer")] ++
        ([.zlog .info (ascii "cleaning up indexer"), .shuttingDownStore true,
          .zlog .info (ascii "waiting on uploads"), .pipelineWaitOnUploads] ++ rest)))) ∧
      Event.pipelineWaitOnUploads ∈ (Launch c i).trace ∧
      shutdownCalls (Launch c i).trace = [some err] ∧
      ((Launch c i).res = .ret () → c.pipelineWaitOnUploads i.pipeline = .ret ())) := by
  constructor
  · intro e
    have hp : (afterSourceShutdown e i).pipeline = i.pipeline := by
      unfold afterSourceShutdown
      split <;> rfl
    refine ⟨rfl, ?_, ?_⟩
    · rw [launchTerminating_eq c e i s hs, cleanup_eq, hp]
      rfl
    · rw [launchTerminating_eq c e i s hs, cleanup_eq, hp]
  · intro err hf hr hc
    obtain ⟨rest, h1, h2⟩ := Launch_failure c i s err hs hf hr hc
    refine ⟨⟨rest, h1⟩, ?_, ?_, h2⟩
    · rw [h1]
      simp [cleanupHead]
    · rw [Launch_calls c i s (some err) hs hr]
      simp [shutdownValue, hc]

/-- Scenario C of the specification: a batch run whose source ends with a read
error still calls `WaitOnUploads` and is shut down with that error. -/
theorem Launch_hook_shutdown_then_cleanup_witness :
    sampleBatchIndexer.source.isSome = true ∧
    sampleBatchIndexer.shutter.fired = false ∧
    HasSuffix sampleReadError.Error (ascii "completed") = false ∧
    Event.pipelineWaitOnUploads ∈
      (Launch (quietCollaborators (some sampleReadError)) sampleBatchIndexer).trace ∧
    shutdownCalls (Launch (quietCollaborators (some sampleReadError)) sampleBatchIndexer).trace =
      [some sampleReadError] :=
  ⟨rfl, rfl, by decide,
   ((Launch_hook_shutdown_then_cleanup (quietCollaborators (some sampleReadError))
      sampleBatchIndexer (sampleBatchIndexer.source.get rfl) rfl).2 sampleReadError rfl rfl
      (by decide)).2.1,
   ((Launch_hook_shutdown_then_cleanup (quietCollaborators (some sampleReadError))
      sampleBatchIndexer (sampleBatchIndexer.source.get rfl) rfl).2 sampleReadError rfl rfl
      (by decide)).2.2.1⟩

/-- Claim C8, as stated, fails: with completion message "completed", a
terminal error with text "completed, then failed" contains the message as a
substring, yet `Launch` shuts the indexer down with that error, not with nil. -/
theorem Launch_substring_not_completed :
    (quietCollaborators (some sampleWrappingError)).CompletedError.text ≠ [] ∧
    (quietCollaborators (some sampleWrappingError)).CompletedError.text <:+:
      sampleWrappingError.text ∧
    shutdownCalls
      (Launch (quietCollaborators (some sampleWrappingError)) sampleBatchIndexer).trace =
      [some sampleWrappingError] := by
  refine ⟨by decide, ⟨[], ascii ", then failed", by decide⟩, ?_⟩
  rw [Launch_calls (quietCollaborators (some sampleWrappingError)) sampleBatchIndexer
    (sampleBatchIndexer.source.get rfl) (some sampleWrappingError) rfl rfl]
  decide

/-- Claim C8, amended. For every terminal error of the source whose text ends
with the completion message, the text of `CompletedError`, `Launch` treats the
run as completed: it logs the success line and shuts the indexer down with
nil. -/
theorem Launch_suffix_completed (c : Collaborators) (i : IndexerBigQuery) (s : Source)
    (err : GoError) (hs : i.source = some s) (hr : c.sourceRun s = .ret (some err))
    (hsuf : c.CompletedError.text <:+ err.text) :
    shutdownCalls (Launch c i).trace = [none] ∧
    Event.zlog .info (ascii "Search Indexing completed successfully") ∈ (Launch c i).trace := by
  have hc : HasSuffix err.Error c.CompletedError.Error = true := (HasSuffix_iff _ _).mpr hsuf
  refine ⟨?_, ?_⟩
  · rw [Launch_calls c i s (some err) hs hr]
    simp [shutdownValue, hc]
  · rw [Launch_eq c i s (some err) hs hr]
    simp [Run.after, verdictLog, hc]

/-- A batch run whose source ends with an error that wraps the completion
message at its end is shut down with nil. -/
theorem Launch_suffix_completed_witness :
    (quietCollaborators (some sampleWrappedError)).CompletedError.text <:+
      sampleWrappedError.text ∧
    shutdownCalls
      (Launch (quietCollaborators (some sampleWrappedError)) sampleBatchIndexer).trace =
      [none] :=
  ⟨⟨ascii "file source: ", by decide⟩,
   (Launch_suffix_completed (quietCollaborators (some sampleWrappedError)) sampleBatchIndexer
      (sampleBatchIndexer.source.get rfl) sampleWrappedError rfl rfl
      ⟨ascii "file source: ", by decide⟩).1⟩

/-! ## indexer.go: the two pipelines -/

/-- Claim C5. The source of the live pipeline is an eternal source around the
factory closure, and for every invocation of that factory with a reference
`r`: when `r` has no id, the file source starts at the block number given to
`BuildLivePipeline`, the handler is passed on as it is and no join target id is
set; when `r` has an id, the file source starts at `r.Num()`, the handler is
wrapped in an exclusive block-id gate on `r.ID()`, and the join target id of
the joining source is `r.ID()`. -/
theorem liveSourceFactory_first_call_or_resume (c : Collaborators) (i : IndexerBigQuery)
    (targetStartBlockNum fileSourceStartBlockNum : Nat) (previousIrreversibleID : GoString) :
    ∃ sf h0,
      (BuildLivePipeline c targetStartBlockNum fileSourceStartBlockNum previousIrreversibleID
        i).state.source = some (.NewEternalSource sf h0) ∧
      ∀ (view : IndexerView) (r : BlockRef) (h : Handler),
        (r.ID = [] →
          (∀ sub, ((sf view r h).js.fileSourceFactory sub).startBlockNum =
            fileSourceStartBlockNum) ∧
          (sf view r h).js.h = h ∧
          targetBlockIDs (sf view r h).js.options = []) ∧
        (r.ID ≠ [] →
          (∀ sub, ((sf view r h).js.fileSourceFactory sub).startBlockNum = r.Num) ∧
          (sf view r h).js.h = .NewBlockIDGate r.ID .GateExclusive h ∧
          targetBlockIDs (sf view r h).js.options = [r.ID]) := by
  refine ⟨liveSourceFromRef c (newPipeline i.blockMapper) fileSourceStartBlockNum, _, rfl, ?_⟩
  intro view r h
  constructor
  · intro hr
    refine ⟨fun sub => ?_, ?_, ?_⟩
    · simp [liveSourceFromRef, hr]
    · simp [liveSourceFromRef, hr]
    · by_cases hp : c.GetProtocolFirstBlock > 0 <;>
        simp [liveSourceFromRef, hr, hp, targetBlockIDs]
  · intro hr
    refine ⟨fun sub => ?_, ?_, ?_⟩
    · simp [liveSourceFromRef, hr]
    · simp [liveSourceFromRef, hr]
    · by_cases hp : c.GetProtocolFirstBlock > 0 <;>
        simp [liveSourceFromRef, hr, hp, targetBlockIDs]

/-- Claim C6, as stated, fails: for the batch pipeline and for the live
pipeline built with target start block 100, the handler chain of the source is
not gate, then fork resolver, then pipeline; its first stage is the fork
resolver and the gate is second. -/
theorem pipelines_not_gate_then_forkResolver :
    gateThenForkResolver 100 sampleBatchIndexer.stages = false ∧
    gateThenForkResolver 100 sampleLiveIndexer.stages = false ∧
    sampleBatchIndexer.stages =
      [.forkResolver [.WithFilters [.StepIrreversible]], .blockNumGate 100 .GateInclusive,
       .pipeline ⟨⟨0⟩⟩] ∧
    sampleLiveIndexer.stages =
      [.forkResolver [.WithFilters [.StepNew, .StepIrreversible]],
       .irreversibleBlockNumGate 100 .GateInclusive, .pipeline ⟨⟨0⟩⟩] := by
  decide

/-- Claim C6, amended. In both pipelines the handler chain places the fork
resolver upstream of the gate: the source delivers every block to the fork
resolver, what the fork resolver emits passes through the number gate with
threshold `targetStartBlockNum` in inclusive mode, and what the gate forwards
goes directly to the pipeline, for every choice of the three arguments. -/
theorem pipelines_forkResolver_then_gate (c : Collaborators) (i : IndexerBigQuery)
    (targetStartBlockNum fileSourceStartBlockNum : Nat) (previousIrreversibleID : GoString) :
    (BuildBatchPipeline targetStartBlockNum fileSourceStartBlockNum previousIrreversibleID
      i).state.stages =
      [.forkResolver (withPreviousLIB [.WithFilters [.StepIrreversible]] previousIrreversibleID
          fileSourceStartBlockNum),
       .blockNumGate targetStartBlockNum .GateInclusive,
       .pipeline (newPipeline i.blockMapper)] ∧
    (BuildLivePipeline c targetStartBlockNum fileSourceStartBlockNum previousIrreversibleID
      i).state.stages =
      [.forkResolver (withPreviousLIB [.WithFilters [.StepNew, .StepIrreversible]]
          previousIrreversibleID fileSourceStartBlockNum),
       .irreversibleBlockNumGate targetStartBlockNum .GateInclusive,
       .pipeline (newPipeline i.blockMapper)] ∧
    forkResolverThenGate targetStartBlockNum
      (BuildBatchPipeline targetStartBlockNum fileSourceStartBlockNum previousIrreversibleID
        i).state.stages = true ∧
    forkResolverThenGate targetStartBlockNum
      (BuildLivePipeline c targetStartBlockNum fileSourceStartBlockNum previousIrreversibleID
        i).state.stages = true ∧
    (BuildBatchPipeline targetStartBlockNum fileSourceStartBlockNum previousIrreversibleID
      i).state.pipeline = some (newPipeline i.blockMapper) ∧
    (BuildLivePipeline c targetStartBlockNum fileSourceStartBlockNum previousIrreversibleID
      i).state.pipeline = some (newPipeline i.blockMapper) := by
  refine ⟨rfl, rfl, ?_, ?_, rfl, rfl⟩
  · have h : (BuildBatchPipeline targetStartBlockNum fileSourceStartBlockNum
        previousIrreversibleID i).state.stages =
        [.forkResolver (withPreviousLIB [.WithFilters [.StepIrreversible]]
            previousIrreversibleID fileSourceStartBlockNum),
         .blockNumGate targetStartBlockNum .GateInclusive,
         .pipeline (newPipeline i.blockMapper)] := rfl
    rw [h]
    simp [forkResolverThenGate, Stage.isForkResolver, Stage.isNumGate, Stage.isPipeline]
  · have h : (BuildLivePipeline c targetStartBlockNum fileSourceStartBlockNum
        previousIrreversibleID i).state.stages =
        [.forkResolver (withPreviousLIB [.WithFilters [.StepNew, .StepIrreversible]]
            previousIrreversibleID fileSourceStartBlockNum),
         .irreversibleBlockNumGate targetStartBlockNum .GateInclusive,
         .pipeline (newPipeline i.blockMapper)] := rfl
    rw [h]
    simp [forkResolverThenGate, Stage.isForkResolver, Stage.isNumGate, Stage.isPipeline]

/-- Claim C7. For every argument triple, `BuildBatchPipeline` gives the fork
resolver exactly one step filter, the set with `StepIrreversible` alone, and
`BuildLivePipeline` gives it exactly one step filter, the set of `StepNew` and
`StepIrreversible`; neither depends on the three arguments. -/
theorem pipelines_step_filters (c : Collaborators) (i : IndexerBigQuery)
    (targetStartBlockNum fileSourceStartBlockNum : Nat) (previousIrreversibleID : GoString) :
    (BuildBatchPipeline targetStartBlockNum fileSourceStartBlockNum previousIrreversibleID
      i).state.filters = [[.StepIrreversible]] ∧
    (BuildLivePipeline c targetStartBlockNum fileSourceStartBlockNum previousIrreversibleID
      i).state.filters = [StepMask.or [.StepNew] [.StepIrreversible]] ∧
    (∀ st : StepType, st ∈ StepMask.or [.StepNew] [.StepIrreversible] ↔
      (st = .StepNew ∨ st = .StepIrreversible)) ∧
    (∀ st : StepType, st ∈ ([.StepIrreversible] : StepMask) ↔ st = .StepIrreversible) := by
  refine ⟨?_, ?_, ?_, ?_⟩
  · have h : (BuildBatchPipeline targetStartBlockNum fileSourceStartBlockNum
        previousIrreversibleID i).state.filters =
        (withPreviousLIB [.WithFilters [.StepIrreversible]] previousIrreversibleID
          fileSourceStartBlockNum).filterMap ForkableOption.filter ++ [] := rfl
    rw [h]
    by_cases hp : previousIrreversibleID = [] <;>
      simp [withPreviousLIB, hp, ForkableOption.filter]
  · have h : (BuildLivePipeline c targetStartBlockNum fileSourceStartBlockNum
        previousIrreversibleID i).state.filters =
        (withPreviousLIB [.WithFilters (StepMask.or [.StepNew] [.StepIrreversible])]
          previousIrreversibleID fileSourceStartBlockNum).filterMap ForkableOption.filter ++ [] :=
      rfl
    rw [h]
    by_cases hp : previousIrreversibleID = [] <;>
      simp [withPreviousLIB, hp, ForkableOption.filter]
  · intro st
    cases st <;> decide
  · intro st
    cases st <;> decide

end Search
